import Mathlib

/-!
# go-proxmox: session construction and request dispatch

A shallow embedding of `proxmox/session.go`.

The HTTP library (resty) and the Go standard library are not part of the
repository.  They enter the embedding as follows.

* The transport is a parameter: a `Client` is the function that answers a
  fully configured request with an error or with a response.
* `strings.ToUpper` is a parameter `ToUpper : String → String` of `Session.Do`.
* `fmt.Errorf` is embedded for the two calls whose message the program fixes:
  a constant format with one string operand, and a format with no operand.
* A request records what the program configured on it (method, URL, query
  parameters, headers, cookies, result target, body).

Side effects are explicit: `Session.Do` returns, next to the Go return values,
the list of requests it handed to the transport.
-/

set_option autoImplicit false

namespace Proxmox

/-! ## Data model -/

/-- A parsed `*url.URL`, carried by the text its `String()` method renders. -/
structure URL where
  rendered : String
  deriving DecidableEq, Repr

/-- The method `(*url.URL).String`. -/
def URL.String (u : URL) : String := u.rendered

/-- The two fields of `http.Cookie` that the program sets. -/
structure Cookie where
  Name : String
  Value : String
  deriving DecidableEq, Repr

/-- A value of Go type `interface{}` as produced by JSON decoding.
A number is a float64, carried by its bit pattern; it is never inspected. -/
inductive JSONValue where
  | null
  | bool (b : Bool)
  | number (bits : Nat)
  | string (s : String)
  | array (items : List JSONValue)
  | object (fields : List (String × JSONValue))

/-- The type `JSONResponse` (`map[string]interface{}`), as its list of entries. -/
abbrev JSONResponse := List (String × JSONValue)

/-- The type `QueryParams` (`map[string]string`): the entries of the map.
A Go map holds each key once. -/
structure QueryParams where
  entries : List (String × String)
  nodup : (entries.map Prod.fst).Nodup

/-- The anonymous struct in the field `Data` of `AccessTicketResponseData`. -/
structure AccessTicketData where
  Username : String
  Ticket : String
  CSRFPreventionToken : String
  Cap : JSONValue

/-- The struct `AccessTicketResponseData`. -/
structure AccessTicketResponseData where
  Data : AccessTicketData

/-- The zero value of `AccessTicketResponseData` (`var responseData AccessTicketResponseData`). -/
def AccessTicketResponseData.zero : AccessTicketResponseData :=
  { Data := { Username := "", Ticket := "", CSRFPreventionToken := "", Cap := JSONValue.null } }

/-! ## The transport (resty), as far as the program uses it -/

/-- The pointer handed to `SetResult`, by the type it points to. -/
inductive ResultTarget where
  | accessTicket
  | json
  deriving DecidableEq, Repr

/-- What `Response.Result()` holds when the response comes back: resty returns
the pointer that was given to `SetResult`, so the value behind it is the
program's `responseData`.  The constructor is the dynamic type that the type
assertions of the program test. -/
inductive ResultValue where
  | accessTicket (responseData : AccessTicketResponseData)
  | json (responseData : JSONResponse)
  | other

/-- A `resty.Request`: the per-request settings. -/
structure Request where
  Method : String
  URL : String
  QueryParam : List (String × String)
  Header : List (String × String)
  Cookies : List Cookie
  Body : Option String
  Result : Option ResultTarget
  deriving DecidableEq, Repr

/-- A `resty.Response`, as far as the program reads it. -/
structure Response where
  StatusCode : Nat
  Status : String
  Result : ResultValue

/-- A `resty.Client`: it answers a configured request with a transport error
(by its message) or with a response. -/
structure Client where
  execute : Request → Except String Response

/-- The method `Client.R`: a fresh request with nothing configured. -/
def Client.R (_c : Client) : Request :=
  { Method := "", URL := "", QueryParam := [], Header := [], Cookies := [],
    Body := none, Result := none }

/-- The method `Set` of `url.Values` and of `http.Header`: the key gets the one
value given, replacing what it had. -/
def setKey (k v : String) : List (String × String) → List (String × String)
  | [] => [(k, v)]
  | (k0, v0) :: rest => if k0 = k then (k, v) :: rest else (k0, v0) :: setKey k v rest

/-- The method `Request.SetCookie`: appends the cookie. -/
def Request.SetCookie (r : Request) (c : Cookie) : Request :=
  { r with Cookies := r.Cookies ++ [c] }

/-- The method `Request.SetQueryParams`: `QueryParam.Set` for each entry of the map. -/
def Request.SetQueryParams (r : Request) (params : QueryParams) : Request :=
  { r with QueryParam := params.entries.foldl (fun q kv => setKey kv.1 kv.2 q) r.QueryParam }

/-- The method `Request.SetResult`. -/
def Request.SetResult (r : Request) (result : ResultTarget) : Request :=
  { r with Result := some result }

/-- The method `Request.SetHeader`: `Header.Set`.  The name is recorded as the
program passes it; HTTP header names are case-insensitive. -/
def Request.SetHeader (r : Request) (header value : String) : Request :=
  { r with Header := setKey header value r.Header }

/-- The method `Request.Execute`: fixes method and URL and hands the request to
the transport.  Returns the request as dispatched together with the answer. -/
def Request.Execute (c : Client) (r : Request) (method url : String) :
    Request × Except String Response :=
  let r := { r with Method := method, URL := url }
  (r, c.execute r)

/-- The method `Request.Get`. -/
def Request.Get (c : Client) (r : Request) (url : String) : Request × Except String Response :=
  Request.Execute c r "GET" url

/-- The method `Request.Post`. -/
def Request.Post (c : Client) (r : Request) (url : String) : Request × Except String Response :=
  Request.Execute c r "POST" url

/-- The method `Request.Put`. -/
def Request.Put (c : Client) (r : Request) (url : String) : Request × Except String Response :=
  Request.Execute c r "PUT" url

/-- The method `Request.Delete`. -/
def Request.Delete (c : Client) (r : Request) (url : String) : Request × Except String Response :=
  Request.Execute c r "DELETE" url

/-! ## `fmt.Errorf` with no operand

`NewSession` calls `fmt.Errorf(res.Status())`: the status text is the format
and there is no operand.  The functions below follow `doPrintf` of package
`fmt` for an empty operand list, on the characters of the format. -/

/-- The flag characters that `doPrintf` skips after a percent sign. -/
def isFlag (c : Char) : Bool :=
  c = '#' || c = '0' || c = '+' || c = '-' || c = ' '

/-- The function `parsenum`: reads decimal digits.  Returns the number, whether
one was read, and the characters left; beyond 10^6 it gives up and skips to the end. -/
def parsenum (num : Nat) (isnum : Bool) : List Char → Nat × Bool × List Char
  | [] => (num, isnum, [])
  | c :: cs =>
    if c.isDigit then
      if num > 1000000 then (0, false, [])
      else parsenum (num * 10 + (c.toNat - 48)) true cs
    else (num, isnum, c :: cs)

/-- The function `parseArgNumber` on a format that starts with an opening
bracket: how many characters the index takes and whether it is well formed. -/
def parseArgNumber (format : List Char) : Nat × Bool :=
  if format.length < 3 then (1, false)
  else
    let inner := (format.drop 1).takeWhile (fun c => c != ']')
    if inner.length = (format.drop 1).length then (1, false)
    else
      let r := parsenum 0 false inner
      if r.2.1 && r.2.2.isEmpty then (inner.length + 2, true) else (inner.length + 2, false)

/-- The method `argNumber` with no operand: an argument index is always out of
range.  Returns `goodArgNum`, the characters left and whether an index was found. -/
def argNumber (goodArgNum : Bool) (format : List Char) : Bool × List Char × Bool :=
  match format with
  | '[' :: _ =>
    let r := parseArgNumber format
    (false, format.drop r.1, r.2)
  | _ => (goodArgNum, format, false)

/-- One verb of `doPrintf` with no operand, on the characters after the percent
sign: the text written and the characters left. -/
def directive (format : List Char) : List Char × List Char :=
  let f1 := format.dropWhile isFlag
  let a1 := argNumber true f1
  -- width
  let w : List Char × Bool × List Char × Bool :=
    match a1.2.1 with
    | '*' :: t => ("%!(BADWIDTH)".data, a1.1, t, false)
    | f2 =>
      let n := parsenum 0 false f2
      ([], a1.1 && !(a1.2.2 && n.2.1), n.2.2, a1.2.2)
  -- precision
  let p : List Char × Bool × List Char × Bool :=
    match w.2.2.1 with
    | '.' :: t =>
      let a2 := argNumber (w.2.1 && !w.2.2.2) t
      match a2.2.1 with
      | '*' :: t2 => (w.1 ++ "%!(BADPREC)".data, a2.1, t2, false)
      | f3 => (w.1, a2.1, (parsenum 0 false f3).2.2, a2.2.2)
    | _ => w
  let a3 : Bool × List Char :=
    if p.2.2.2 then (p.2.1, p.2.2.1)
    else
      let a := argNumber p.2.1 p.2.2.1
      (a.1, a.2.1)
  match a3.2 with
  | [] => (p.1 ++ "%!(NOVERB)".data, [])
  | verb :: t =>
    if verb = '%' then (p.1 ++ ['%'], t)
    else if !a3.1 then (p.1 ++ "%!".data ++ [verb] ++ "(BADINDEX)".data, t)
    else (p.1 ++ "%!".data ++ [verb] ++ "(MISSING)".data, t)

/-- The loop of `doPrintf` with no operand.  The first argument bounds the
number of steps; the length of the format plus one is enough. -/
def doPrintf : Nat → List Char → List Char
  | 0, _ => []
  | _ + 1, [] => []
  | n + 1, c :: cs =>
    if c = '%' then
      let d := directive cs
      d.1 ++ doPrintf n d.2
    else c :: doPrintf n cs

/-- The message of `fmt.Errorf(format)`, a call with no operand. -/
def Errorf0 (format : String) : String :=
  String.mk (doPrintf (format.data.length + 1) format.data)

/-! ## Errors -/

/-- The errors the program returns, by the statement that creates them. -/
inductive GoError where
  /-- The `err` of the transport, returned unchanged. -/
  | transport (msg : String)
  /-- `fmt.Errorf("Result not parseable: %#v", responseData)`. -/
  | resultNotParseable
  /-- `fmt.Errorf(res.Status())`: the status text is the format. -/
  | status (format : String)
  /-- `fmt.Errorf("Unsupported method: %s", method)`. -/
  | unsupportedMethod (method : String)
  /-- `fmt.Errorf("Unable to parse response as JSONResponse: %#v", responseData)`. -/
  | unableToParse
  deriving DecidableEq, Repr

/-- The method `Error()`: the message.  The verb `%s` writes a string operand
as it is.  The two messages that render a struct or a map with `%#v` are not
embedded. -/
def GoError.Error : GoError → Option String
  | GoError.transport msg => some msg
  | GoError.resultNotParseable => none
  | GoError.status format => some (Errorf0 format)
  | GoError.unsupportedMethod method => some ("Unsupported method: " ++ method)
  | GoError.unableToParse => none

/-! ## Session -/

/-- The struct `Session`.  `Ticket` is a pointer: `none` is `nil`. -/
structure Session where
  BaseURL : URL
  CSRFPreventionToken : String
  Ticket : Option Cookie
  restyClient : Client

/-- The method `Session.NewRequest`. -/
def Session.NewRequest (s : Session) (params : QueryParams) (result : ResultTarget) : Request :=
  let req := s.restyClient.R
  let req :=
    match s.Ticket with
    | some ticket => req.SetCookie ticket
    | none => req
  let req := req.SetQueryParams params
  let req := req.SetResult result
  req

/-- The function `NewSession`.  Returns the pair `(*Session, error)`. -/
def NewSession (restyClient : Client) (apiURL : URL) (credentials : QueryParams) :
    Option Session × Option GoError :=
  let session : Session :=
    { BaseURL := apiURL, CSRFPreventionToken := "", Ticket := none, restyClient := restyClient }
  let req := session.NewRequest credentials ResultTarget.accessTicket
  let url := apiURL.String ++ "/access/ticket"
  match (Request.Post restyClient req url).2 with
  | Except.error err => (none, some (GoError.transport err))
  | Except.ok res =>
    match res.Result with
    | ResultValue.accessTicket responseData =>
      let session : Session :=
        { session with
          CSRFPreventionToken := responseData.Data.CSRFPreventionToken
          Ticket := some { Name := "PVEAuthCookie", Value := responseData.Data.Ticket } }
      if res.StatusCode ≠ 200 then (some session, some (GoError.status res.Status))
      else (some session, none)
    | _ => (none, some GoError.resultNotParseable)

/-- What a call of `Session.Do` does: the requests handed to the transport, in
order, and the two Go return values. -/
structure DoResult where
  sent : List Request
  res : Option JSONResponse
  err : Option GoError

/-- The tail of `Session.Do` after the switch: the error check and the type
assertion on the result. -/
def doFinish (x : Request × Except String Response) : DoResult :=
  match x.2 with
  | Except.error err => { sent := [x.1], res := none, err := some (GoError.transport err) }
  | Except.ok res =>
    match res.Result with
    | ResultValue.json responseData => { sent := [x.1], res := some responseData, err := none }
    | _ => { sent := [x.1], res := none, err := some GoError.unableToParse }

/-- The method `Session.Do`. -/
def Session.Do (ToUpper : String → String) (s : Session) (method path : String)
    (params : QueryParams) : DoResult :=
  let url := s.BaseURL.String ++ path
  let method := ToUpper method
  let req := s.NewRequest params ResultTarget.json
  if method = "GET" then
    doFinish (Request.Get s.restyClient req url)
  else if method = "POST" then
    let req := req.SetHeader "CSRFPreventionToken" s.CSRFPreventionToken
    doFinish (Request.Post s.restyClient req url)
  else if method = "PUT" then
    let req := req.SetHeader "CSRFPreventionToken" s.CSRFPreventionToken
    doFinish (Request.Put s.restyClient req url)
  else if method = "DELETE" then
    let req := req.SetHeader "CSRFPreventionToken" s.CSRFPreventionToken
    doFinish (Request.Delete s.restyClient req url)
  else
    { sent := [], res := none, err := some (GoError.unsupportedMethod method) }

/-- The value of the ticket a session holds; a `nil` ticket has none. -/
def Session.ticketValue (s : Session) : Option String :=
  s.Ticket.map Cookie.Value

/-- The answer of the transport to the login POST of `NewSession`: the
expression `req.Post(url)` of that function. -/
def loginAnswer (restyClient : Client) (apiURL : URL) (credentials : QueryParams) :
    Except String Response :=
  (Request.Post restyClient
    (Session.NewRequest
      { BaseURL := apiURL, CSRFPreventionToken := "", Ticket := none, restyClient := restyClient }
      credentials ResultTarget.accessTicket)
    (apiURL.String ++ "/access/ticket")).2

/-- The methods the switch of `Session.Do` has a case for. -/
def supportedMethod (m : String) : Prop :=
  m = "GET" ∨ m = "POST" ∨ m = "PUT" ∨ m = "DELETE"

instance (m : String) : Decidable (supportedMethod m) := by
  unfold supportedMethod
  infer_instance

/-! ## Concrete inputs -/

/-- Upper-casing of the letters a to z; `strings.ToUpper` agrees with it on
ASCII text. -/
def toUpperASCII (s : String) : String :=
  String.mk (s.data.map Char.toUpper)

/-- The base URL of the tests. -/
def goodURL : URL := { rendered := "https://localhost:8006/api2/json" }

/-- The credentials of the tests. -/
def goodCredentials : QueryParams :=
  { entries := [("username", "root@pam"), ("password", "root")], nodup := by decide }

/-- An empty parameter mapping. -/
def noParams : QueryParams := { entries := [], nodup := List.nodup_nil }

/-- A parameter mapping with one entry. -/
def nodeParams : QueryParams := { entries := [("node", "pve")], nodup := by decide }

/-- A transport that answers every request with the given response. -/
def respond (res : Response) : Client := { execute := fun _ => Except.ok res }

/-- A transport that fails on every request. -/
def failing (msg : String) : Client := { execute := fun _ => Except.error msg }

/-- A decoded login body with the given ticket and CSRF token. -/
def ticketBody (ticket token : String) : AccessTicketResponseData :=
  { Data := { Username := "root@pam", Ticket := ticket, CSRFPreventionToken := token,
              Cap := JSONValue.null } }

/-- A successful login response. -/
def okResponse : Response :=
  { StatusCode := 200, Status := "200 OK", Result := ResultValue.accessTicket (ticketBody "T" "C") }

/-- A login response with status 201 and a decoded body. -/
def createdResponse : Response :=
  { StatusCode := 201, Status := "201 Created",
    Result := ResultValue.accessTicket (ticketBody "T" "C") }

/-- A login response with status 200 whose body has a ticket and no CSRF token. -/
def ticketOnlyResponse : Response :=
  { StatusCode := 200, Status := "200 OK", Result := ResultValue.accessTicket (ticketBody "T" "") }

/-- The response of the test with bad credentials: status 401, the result
target left at its zero value. -/
def unauthorizedResponse : Response :=
  { StatusCode := 401, Status := "401 Unauthorized",
    Result := ResultValue.accessTicket AccessTicketResponseData.zero }

/-- A login response whose status text ends in a percent sign. -/
def percentResponse : Response :=
  { StatusCode := 503, Status := "503 CPU at 100%",
    Result := ResultValue.accessTicket AccessTicketResponseData.zero }

/-- A decoded JSON object. -/
def versionBody : JSONResponse :=
  [("data", JSONValue.object [("version", JSONValue.string "6.3")])]

/-- A response with status 500 and a decoded JSON object. -/
def versionResponse : Response :=
  { StatusCode := 500, Status := "500 Internal Server Error",
    Result := ResultValue.json versionBody }

/-- An authenticated session over a transport that answers with `versionResponse`. -/
def authSession : Session :=
  { BaseURL := goodURL, CSRFPreventionToken := "C",
    Ticket := some { Name := "PVEAuthCookie", Value := "T" },
    restyClient := respond versionResponse }

/-! ## Lemmas on the embedding -/

theorem setKey_of_not_mem (k v : String) (l : List (String × String))
    (h : k ∉ l.map Prod.fst) : setKey k v l = l ++ [(k, v)] := by
  induction l with
  | nil => rfl
  | cons a rest ih =>
    obtain ⟨k0, v0⟩ := a
    simp only [List.map_cons, List.mem_cons, not_or] at h
    have hne : ¬ k0 = k := fun e => h.1 e.symm
    simp [setKey, hne, ih h.2]

theorem foldl_setKey_of_nodup (l acc : List (String × String))
    (h : ((acc ++ l).map Prod.fst).Nodup) :
    l.foldl (fun q kv => setKey kv.1 kv.2 q) acc = acc ++ l := by
  induction l generalizing acc with
  | nil => simp
  | cons a rest ih =>
    have hk : a.1 ∉ acc.map Prod.fst := by
      intro hmem
      rw [List.map_append, List.map_cons] at h
      exact (List.nodup_append.mp h).2.2 hmem (List.mem_cons_self _ _)
    have h2 : (((acc ++ [a]) ++ rest).map Prod.fst).Nodup := by
      simpa [List.append_assoc] using h
    simp only [List.foldl_cons]
    rw [setKey_of_not_mem _ _ _ hk, ih _ h2]
    simp [List.append_assoc]

theorem NewRequest_eq (s : Session) (params : QueryParams) (result : ResultTarget) :
    s.NewRequest params result =
      { Method := "", URL := "", QueryParam := params.entries, Header := [],
        Cookies := s.Ticket.toList, Body := none, Result := some result } := by
  have hq : params.entries.foldl (fun q kv => setKey kv.1 kv.2 q) [] = params.entries := by
    simpa using foldl_setKey_of_nodup params.entries [] (by simpa using params.nodup)
  cases ht : s.Ticket <;>
    simp [Session.NewRequest, ht, Client.R, Request.SetCookie, Request.SetQueryParams,
      Request.SetResult, hq]

theorem doFinish_sent (x : Request × Except String Response) : (doFinish x).sent = [x.1] := by
  unfold doFinish
  split
  · rfl
  · split <;> rfl

theorem toUpper_toUpper (c : Char) : c.toUpper.toUpper = c.toUpper := by
  by_cases h : c.toNat ≥ 97 ∧ c.toNat ≤ 122
  · have hc : c = Char.ofNat c.toNat := (Char.ofNat_toNat c).symm
    obtain ⟨h1, h2⟩ := h
    generalize c.toNat = n at hc h1 h2
    subst hc
    interval_cases n <;> decide
  · have hid : c.toUpper = c := by
      unfold Char.toUpper
      simp only [h, if_false]
    rw [hid, hid]

theorem toUpperASCII_idem (m : String) : toUpperASCII (toUpperASCII m) = toUpperASCII m := by
  have hcomp : Char.toUpper ∘ Char.toUpper = Char.toUpper := funext toUpper_toUpper
  simp [toUpperASCII, hcomp]

theorem doPrintf_of_no_percent (l : List Char) (n : Nat) (hn : l.length ≤ n)
    (h : '%' ∉ l) : doPrintf n l = l := by
  induction l generalizing n with
  | nil => cases n <;> rfl
  | cons c cs ih =>
    cases n with
    | zero => simp at hn
    | succ n =>
      simp only [List.mem_cons, not_or] at h
      have hc : ¬ c = '%' := fun e => h.1 e.symm
      simp only [List.length_cons, Nat.add_le_add_iff_right] at hn
      simp [doPrintf, hc, ih n hn h.2]

/-- A status text without a percent sign is the message of the error made from it. -/
theorem Errorf0_of_no_percent (format : String) (h : '%' ∉ format.data) :
    Errorf0 format = format := by
  unfold Errorf0
  rw [doPrintf_of_no_percent _ _ (Nat.le_succ _) h]

/-! ## Session construction -/

/-- C1: when the login POST returns without transport error a response with
status 200 whose decoded body has `data.ticket` T and `data.CSRFPreventionToken`
C, `NewSession` returns a nil error and a Session whose BaseURL is the given URL,
whose CSRFPreventionToken is C and whose Ticket is the cookie `PVEAuthCookie`
with value T (and whose transport is the given one). -/
theorem NewSession_ok_stores_ticket_and_token (c : Client) (apiURL : URL)
    (credentials : QueryParams) (res : Response) (d : AccessTicketResponseData) (T C : String)
    (hpost : loginAnswer c apiURL credentials = Except.ok res)
    (hstatus : res.StatusCode = 200)
    (hbody : res.Result = ResultValue.accessTicket d)
    (hT : d.Data.Ticket = T) (hC : d.Data.CSRFPreventionToken = C) :
    ∃ s, NewSession c apiURL credentials = (some s, none) ∧ s.BaseURL = apiURL ∧
      s.CSRFPreventionToken = C ∧ s.Ticket = some { Name := "PVEAuthCookie", Value := T } ∧
      s.restyClient = c := by
  unfold loginAnswer at hpost
  subst hT hC
  simp only [NewSession, hpost, hbody, hstatus]
  exact ⟨_, rfl, rfl, rfl, rfl, rfl⟩

/-- Witness of C1: the successful login of the tests. -/
theorem NewSession_ok_stores_ticket_and_token_witness :
    ∃ s, NewSession (respond okResponse) goodURL goodCredentials = (some s, none) ∧
      s.BaseURL = goodURL ∧ s.CSRFPreventionToken = "C" ∧
      s.Ticket = some { Name := "PVEAuthCookie", Value := "T" } ∧
      s.restyClient = respond okResponse :=
  NewSession_ok_stores_ticket_and_token (respond okResponse) goodURL goodCredentials okResponse
    (ticketBody "T" "C") "T" "C" rfl rfl rfl rfl rfl

/-- C2, at a failing input: for a login response with status 503 and status
text `503 CPU at 100%`, `NewSession` returns a Session and the error made by
`fmt.Errorf` with the status text as its format; the message of that error is
`503 CPU at 100%!(NOVERB)`, which is not the status text. -/
theorem NewSession_status_text_used_as_format :
    loginAnswer (respond percentResponse) goodURL goodCredentials = Except.ok percentResponse ∧
    percentResponse.StatusCode ≠ 200 ∧
    (NewSession (respond percentResponse) goodURL goodCredentials).1.map Session.BaseURL
      = some goodURL ∧
    (NewSession (respond percentResponse) goodURL goodCredentials).2
      = some (GoError.status "503 CPU at 100%") ∧
    (NewSession (respond percentResponse) goodURL goodCredentials).2.bind GoError.Error
      = some "503 CPU at 100%!(NOVERB)" ∧
    (NewSession (respond percentResponse) goodURL goodCredentials).2.bind GoError.Error
      ≠ some percentResponse.Status :=
  ⟨rfl, by decide, rfl, rfl, by decide, by decide⟩

/-- C3 as stated fails: a login response with status 201 whose decoded body
has ticket T and CSRF token C makes `NewSession` return an error together with a
Session whose CSRFPreventionToken is C and whose Ticket value is T, not the
empty string. -/
theorem NewSession_non200_fields_not_empty :
    loginAnswer (respond createdResponse) goodURL goodCredentials = Except.ok createdResponse ∧
    createdResponse.StatusCode ≠ 200 ∧
    (NewSession (respond createdResponse) goodURL goodCredentials).2
      = some (GoError.status "201 Created") ∧
    (NewSession (respond createdResponse) goodURL goodCredentials).1.map
      Session.CSRFPreventionToken = some "C" ∧
    (NewSession (respond createdResponse) goodURL goodCredentials).1.bind
      Session.ticketValue = some "T" ∧
    ¬ ((NewSession (respond createdResponse) goodURL goodCredentials).1.map
        Session.CSRFPreventionToken = some "" ∧
       (NewSession (respond createdResponse) goodURL goodCredentials).1.bind
        Session.ticketValue = some "") :=
  ⟨rfl, by decide, rfl, rfl, rfl, by decide⟩

/-- C3, amended: for every login response with a status other than 200,
`NewSession` returns an error and a Session whose CSRFPreventionToken and Ticket
value are the `data.CSRFPreventionToken` and `data.ticket` that the transport
decoded into the result target; both are the empty string whenever those two
fields of the target are empty, as they are for the 401 response of the test. -/
theorem NewSession_non200_copies_decoded_fields (c : Client) (apiURL : URL)
    (credentials : QueryParams) (res : Response) (d : AccessTicketResponseData)
    (hpost : loginAnswer c apiURL credentials = Except.ok res)
    (hstatus : res.StatusCode ≠ 200)
    (hbody : res.Result = ResultValue.accessTicket d) :
    ∃ s, NewSession c apiURL credentials = (some s, some (GoError.status res.Status)) ∧
      s.CSRFPreventionToken = d.Data.CSRFPreventionToken ∧
      s.ticketValue = some d.Data.Ticket ∧
      (d.Data.CSRFPreventionToken = "" → d.Data.Ticket = "" →
        s.CSRFPreventionToken = "" ∧ s.ticketValue = some "") := by
  unfold loginAnswer at hpost
  simp only [NewSession, hpost, hbody]
  rw [if_pos hstatus]
  refine ⟨_, rfl, rfl, rfl, ?_⟩
  intro h1 h2
  simp [Session.ticketValue, h1, h2]

/-- Witness of C3, amended: the 401 response of the test with bad credentials. -/
theorem NewSession_non200_copies_decoded_fields_witness :
    ∃ s, NewSession (respond unauthorizedResponse) goodURL goodCredentials
        = (some s, some (GoError.status "401 Unauthorized")) ∧
      s.CSRFPreventionToken = "" ∧ s.ticketValue = some "" ∧
      ("" = "" → "" = "" → s.CSRFPreventionToken = "" ∧ s.ticketValue = some "") :=
  NewSession_non200_copies_decoded_fields (respond unauthorizedResponse) goodURL goodCredentials
    unauthorizedResponse AccessTicketResponseData.zero rfl (by decide) rfl

/-- C4, at a failing input: when the transport fails on the login POST,
`NewSession` returns the transport error together with a nil Session, not a
Session that carries the base URL. -/
theorem NewSession_transport_failure_returns_nil_session :
    loginAnswer (failing "no responder found") goodURL goodCredentials
      = Except.error "no responder found" ∧
    (NewSession (failing "no responder found") goodURL goodCredentials).1.isNone = true ∧
    (NewSession (failing "no responder found") goodURL goodCredentials).1.map Session.BaseURL
      ≠ some goodURL ∧
    (NewSession (failing "no responder found") goodURL goodCredentials).2
      = some (GoError.transport "no responder found") :=
  ⟨rfl, rfl, by decide, rfl⟩

/-- C5 as stated fails: a login response with status 200 whose decoded body
has ticket T and an empty CSRF token makes `NewSession` return, with a nil
error, a Session whose Ticket value is T and whose CSRFPreventionToken is empty. -/
theorem NewSession_ticket_without_token :
    loginAnswer (respond ticketOnlyResponse) goodURL goodCredentials
      = Except.ok ticketOnlyResponse ∧
    (NewSession (respond ticketOnlyResponse) goodURL goodCredentials).2 = none ∧
    (NewSession (respond ticketOnlyResponse) goodURL goodCredentials).1.bind
      Session.ticketValue = some "T" ∧
    (NewSession (respond ticketOnlyResponse) goodURL goodCredentials).1.map
      Session.CSRFPreventionToken = some "" ∧
    ¬ ((NewSession (respond ticketOnlyResponse) goodURL goodCredentials).1.bind
          Session.ticketValue = some "" ↔
       (NewSession (respond ticketOnlyResponse) goodURL goodCredentials).1.map
          Session.CSRFPreventionToken = some "") :=
  ⟨rfl, rfl, rfl, rfl, by decide⟩

/-- C5, amended: every Session that `NewSession` returns, with or without an
error, has as CSRFPreventionToken and Ticket value the
`data.CSRFPreventionToken` and `data.ticket` of the decoded login response; so
its Ticket value is empty if and only if its CSRFPreventionToken is empty
exactly when that holds of the two fields of the decoded body. -/
theorem NewSession_fields_mirror_decoded_body (c : Client) (apiURL : URL)
    (credentials : QueryParams) (s : Session) (e : Option GoError)
    (h : NewSession c apiURL credentials = (some s, e)) :
    ∃ res d, loginAnswer c apiURL credentials = Except.ok res ∧
      res.Result = ResultValue.accessTicket d ∧
      s.CSRFPreventionToken = d.Data.CSRFPreventionToken ∧
      s.ticketValue = some d.Data.Ticket ∧
      ((s.ticketValue = some "" ↔ s.CSRFPreventionToken = "") ↔
        (d.Data.Ticket = "" ↔ d.Data.CSRFPreventionToken = "")) := by
  unfold loginAnswer
  unfold NewSession at h
  simp only [] at h
  split at h
  · simp at h
  · rename_i res hres
    split at h
    · rename_i d hd
      refine ⟨res, d, hres, hd, ?_⟩
      split at h <;>
      · simp only [Prod.mk.injEq, Option.some.injEq] at h
        obtain ⟨hs, -⟩ := h
        subst hs
        simp [Session.ticketValue]
    · simp at h

/-- Witness of C5, amended: the Session of the successful login of the tests. -/
theorem NewSession_fields_mirror_decoded_body_witness :
    ∃ res d, loginAnswer (respond okResponse) goodURL goodCredentials = Except.ok res ∧
      res.Result = ResultValue.accessTicket d ∧
      "C" = d.Data.CSRFPreventionToken ∧
      some "T" = some d.Data.Ticket ∧
      ((some "T" = some "" ↔ "C" = "") ↔
        (d.Data.Ticket = "" ↔ d.Data.CSRFPreventionToken = "")) :=
  NewSession_fields_mirror_decoded_body (respond okResponse) goodURL goodCredentials
    { BaseURL := goodURL, CSRFPreventionToken := "C",
      Ticket := some { Name := "PVEAuthCookie", Value := "T" },
      restyClient := respond okResponse }
    none rfl

/-! ## Request dispatch -/

/-- C6 as stated fails: for the method string `patch`, whose upper-cased form
is none of GET, POST, PUT, DELETE, the message of the error of `Do` is
`Unsupported method: PATCH`; it names the upper-cased form, not the method
string that was passed. -/
theorem Do_unsupported_message_is_upper_cased :
    ¬ supportedMethod (toUpperASCII "patch") ∧
    (authSession.Do toUpperASCII "patch" "/version" noParams).err.bind GoError.Error
      = some "Unsupported method: PATCH" ∧
    (authSession.Do toUpperASCII "patch" "/version" noParams).err.bind GoError.Error
      ≠ some ("Unsupported method: " ++ "patch") :=
  ⟨by decide, by decide, by decide⟩

/-- C6, amended: for every session, path, parameter mapping and method string
whose upper-cased form is none of GET, POST, PUT, DELETE, `Do` hands no request
to the transport and returns a nil response and an error whose message is
`Unsupported method: ` followed by the upper-cased form of the method. -/
theorem Do_unsupported_method (ToUpper : String → String) (s : Session) (method path : String)
    (params : QueryParams) (h : ¬ supportedMethod (ToUpper method)) :
    (s.Do ToUpper method path params).sent = [] ∧
    (s.Do ToUpper method path params).res = none ∧
    ∃ e, (s.Do ToUpper method path params).err = some e ∧
      e.Error = some ("Unsupported method: " ++ ToUpper method) := by
  simp only [supportedMethod, not_or] at h
  obtain ⟨h1, h2, h3, h4⟩ := h
  have hdo : s.Do ToUpper method path params =
      { sent := [], res := none, err := some (GoError.unsupportedMethod (ToUpper method)) } := by
    simp only [Session.Do, h1, h2, h3, h4, if_false]
  rw [hdo]
  exact ⟨rfl, rfl, _, rfl, rfl⟩

/-- Witness of C6, amended: the method `PATCH`. -/
theorem Do_unsupported_method_witness :
    (authSession.Do toUpperASCII "PATCH" "/version" noParams).sent = [] ∧
    (authSession.Do toUpperASCII "PATCH" "/version" noParams).res = none ∧
    ∃ e, (authSession.Do toUpperASCII "PATCH" "/version" noParams).err = some e ∧
      e.Error = some ("Unsupported method: " ++ toUpperASCII "PATCH") :=
  Do_unsupported_method toUpperASCII authSession "PATCH" "/version" noParams (by decide)

/-- C7: for every session and every supported method, `Do` dispatches one
request, and that request carries the header `CSRFPreventionToken` with the
CSRF token stored on the session if and only if the upper-cased method is POST,
PUT or DELETE; for GET the request has no header at all. -/
theorem Do_csrf_header_iff_mutating (ToUpper : String → String) (s : Session)
    (method path : String) (params : QueryParams) (h : supportedMethod (ToUpper method)) :
    ∃ req, (s.Do ToUpper method path params).sent = [req] ∧
      (req.Header.lookup "CSRFPreventionToken" = some s.CSRFPreventionToken ↔
        (ToUpper method = "POST" ∨ ToUpper method = "PUT" ∨ ToUpper method = "DELETE")) ∧
      (ToUpper method = "GET" → req.Header = []) := by
  rcases h with h | h | h | h <;>
    simp [Session.Do, h, doFinish_sent, NewRequest_eq, Request.Get, Request.Post, Request.Put,
      Request.Delete, Request.Execute, Request.SetHeader, setKey]

/-- Witness of C7: a POST, given in lower case. -/
theorem Do_csrf_header_iff_mutating_witness :
    ∃ req, (authSession.Do toUpperASCII "post" "/nodes" nodeParams).sent = [req] ∧
      (req.Header.lookup "CSRFPreventionToken" = some authSession.CSRFPreventionToken ↔
        (toUpperASCII "post" = "POST" ∨ toUpperASCII "post" = "PUT" ∨
          toUpperASCII "post" = "DELETE")) ∧
      (toUpperASCII "post" = "GET" → req.Header = []) :=
  Do_csrf_header_iff_mutating toUpperASCII authSession "post" "/nodes" nodeParams (by decide)

/-- C8: for every session and supported method, `Do` dispatches one request,
and whenever the transport answers it without error by a response, of whatever
status, whose body it decoded into the JSON object J, `Do` returns a nil error
and the mapping J itself. -/
theorem Do_returns_decoded_body (ToUpper : String → String) (s : Session)
    (method path : String) (params : QueryParams) (h : supportedMethod (ToUpper method)) :
    ∃ req, (s.Do ToUpper method path params).sent = [req] ∧
      ∀ (res : Response) (J : JSONResponse),
        s.restyClient.execute req = Except.ok res → res.Result = ResultValue.json J →
        (s.Do ToUpper method path params).res = some J ∧
        (s.Do ToUpper method path params).err = none := by
  rcases h with h | h | h | h <;>
  · simp only [Session.Do, h, doFinish_sent, Request.Get, Request.Post, Request.Put,
      Request.Delete, Request.Execute]
    simp only [String.reduceEq, if_false, if_true]
    refine ⟨_, doFinish_sent _, ?_⟩
    intro res J hexec hres
    simp only [] at hexec
    rw [hexec]
    simp [doFinish, hres]

/-- Witness of C8: a GET answered with status 500 and a decoded JSON object. -/
theorem Do_returns_decoded_body_witness :
    supportedMethod (toUpperASCII "GET") ∧
    (authSession.Do toUpperASCII "GET" "/version" noParams).res = some versionBody ∧
    (authSession.Do toUpperASCII "GET" "/version" noParams).err = none := by
  obtain ⟨req, -, hreq⟩ :=
    Do_returns_decoded_body toUpperASCII authSession "GET" "/version" noParams (by decide)
  exact ⟨by decide, hreq versionResponse versionBody rfl rfl⟩

/-- C9: for every session, path, parameter mapping and supported method, `Do`
dispatches one request; its method is the upper-cased method, its URL is the
text of the base URL followed by the path, its query parameters are the
supplied parameters, it has no body, and its cookies are the stored ticket when
the session has one and none otherwise.  `NewRequest` configures these query
parameters and cookies and the result target it is given. -/
theorem Do_request_url_params_cookie (ToUpper : String → String) (s : Session)
    (method path : String) (params : QueryParams) (h : supportedMethod (ToUpper method)) :
    (∃ req, (s.Do ToUpper method path params).sent = [req] ∧
      req.Method = ToUpper method ∧
      req.URL = s.BaseURL.String ++ path ∧
      req.QueryParam = params.entries ∧
      req.Body = none ∧
      req.Cookies = s.Ticket.toList ∧
      req.Result = some ResultTarget.json) ∧
    ∀ result : ResultTarget,
      (s.NewRequest params result).QueryParam = params.entries ∧
      (s.NewRequest params result).Cookies = s.Ticket.toList ∧
      (s.NewRequest params result).Result = some result ∧
      (s.NewRequest params result).Body = none := by
  constructor
  · rcases h with h | h | h | h <;>
      simp [Session.Do, h, doFinish_sent, NewRequest_eq, Request.Get, Request.Post, Request.Put,
        Request.Delete, Request.Execute, Request.SetHeader]
  · intro result
    simp [NewRequest_eq]

/-- Witness of C9: a DELETE with one parameter on an authenticated session. -/
theorem Do_request_url_params_cookie_witness :
    (∃ req, (authSession.Do toUpperASCII "delete" "/nodes" nodeParams).sent = [req] ∧
      req.Method = toUpperASCII "delete" ∧
      req.URL = authSession.BaseURL.String ++ "/nodes" ∧
      req.QueryParam = nodeParams.entries ∧
      req.Body = none ∧
      req.Cookies = authSession.Ticket.toList ∧
      req.Result = some ResultTarget.json) ∧
    ∀ result : ResultTarget,
      (authSession.NewRequest nodeParams result).QueryParam = nodeParams.entries ∧
      (authSession.NewRequest nodeParams result).Cookies = authSession.Ticket.toList ∧
      (authSession.NewRequest nodeParams result).Result = some result ∧
      (authSession.NewRequest nodeParams result).Body = none :=
  Do_request_url_params_cookie toUpperASCII authSession "delete" "/nodes" nodeParams
    (by decide)

/-- C10: method matching in `Do` is case-insensitive.  Upper-casing an
upper-cased string changes nothing (as for `strings.ToUpper`); then for every
session, path, parameter mapping and method string m, `Do` with m hands the same
requests to the transport and returns the same response and error as `Do` with
the upper-cased m. -/
theorem Do_case_insensitive (ToUpper : String → String)
    (hidem : ∀ m, ToUpper (ToUpper m) = ToUpper m) (s : Session) (method path : String)
    (params : QueryParams) :
    s.Do ToUpper method path params = s.Do ToUpper (ToUpper method) path params := by
  simp only [Session.Do, hidem]

/-- Witness of C10: `get` and `GET`. -/
theorem Do_case_insensitive_witness :
    (∀ m, toUpperASCII (toUpperASCII m) = toUpperASCII m) ∧
    authSession.Do toUpperASCII "get" "/version" noParams
      = authSession.Do toUpperASCII "GET" "/version" noParams :=
  ⟨toUpperASCII_idem,
    Do_case_insensitive toUpperASCII toUpperASCII_idem authSession "get" "/version" noParams⟩

end Proxmox
